import Mathlib

/-!
Verification of the Watts Vision+ Home Assistant integration.

The Python sources are embedded shallowly:
* Python `dict` values become insertion-ordered association lists
  (`List (K × V)`) with `dictGet` / `dictInsert` mirroring `d[k]` reads and
  `d[k] = v` writes, and `pyUnion` mirroring the `{**a, **b}` merge.
* JSON values become the inductive `Value`.
* Python exceptions become the inductive `PyErr`; a fallible operation
  returns `Except PyErr α`.
* Awaited network calls are oracle parameters: each embedded operation takes
  the outcome the awaited call would produce and is proved correct for every
  outcome.  Where call ordering matters the operation also returns the list
  of calls it performed, in order.
-/

deriving instance DecidableEq for Except

/-- A JSON-like value as it appears in the vendor API payloads. -/
inductive Value where
  | vNone : Value
  | vBool : Bool → Value
  | vInt : Int → Value
  | vStr : String → Value
  | vList : List String → Value
  deriving DecidableEq, Repr

/-- Python exception classes that appear in the integration's `except`
clauses, plus `UpdateFailed` raised by the coordinators and a catch-all
`clientError` for transport-level failures. -/
inductive PyErr where
  | runtimeError : String → PyErr
  | valueError : String → PyErr
  | typeError : String → PyErr
  | osError : String → PyErr
  | attributeError : String → PyErr
  | keyError : String → PyErr
  | clientError : String → PyErr
  | updateFailed : String → PyErr
  deriving DecidableEq, Repr

/-- Lookup in a Python dict: the value bound to `key`, if any. -/
def dictGet {K V : Type} [DecidableEq K] : List (K × V) → K → Option V
  | [], _ => none
  | (k, v) :: rest, key => if key = k then some v else dictGet rest key

/-- Python `d[key] = val`: replace in place if the key is bound, else append
(preserving insertion order). -/
def dictInsert {K V : Type} [DecidableEq K] : List (K × V) → K → V → List (K × V)
  | [], key, val => [(key, val)]
  | (k, v) :: rest, key, val =>
    if key = k then (key, val) :: rest else (k, v) :: dictInsert rest key val

/-- The keys of a Python dict, in order. -/
def dictKeys {K V : Type} (d : List (K × V)) : List K := d.map Prod.fst

/-- Python `{**a, **b}`: start from `a` and write every binding of `b` over
it, so for a shared key the value from `b` wins. -/
def pyUnion {K V : Type} [DecidableEq K] (a b : List (K × V)) : List (K × V) :=
  b.foldl (fun acc kv => dictInsert acc kv.1 kv.2) a

/-- A device record as stored in the snapshot: a dict from JSON field name
to value. -/
abbrev DeviceData : Type := List (String × Value)

/-- A coordinator snapshot: a dict from device id to device record
(`coordinator.data` read by the entities in
`src/config/custom_components/watts`). -/
abbrev Snapshot : Type := List (String × DeviceData)

/-- An OAuth2 token as held by the session: access token plus expiry
instant (`Token` of the data model; spec section 3). -/
structure Token where
  access_token : String
  expires_at : Nat
  deriving DecidableEq, Repr

/-- Modelled from the spec: `OAuth2Session.async_ensure_token_valid` is
host-framework code, not under `src/`.  Spec sections 2 and 3: the auth
provider "ensures refresh before expiry"; "a request is never sent with a
token known to be expired — refresh is attempted first."  If the stored
token is still valid at `now` it is kept, otherwise the refresh outcome
`refreshR` (which may fail) replaces it. -/
def async_ensure_token_valid (now : Nat) (token : Token)
    (refreshR : Except PyErr Token) : Except PyErr Token :=
  if now < token.expires_at then Except.ok token else refreshR

/-- `AsyncConfigEntryAuth.async_get_access_token`
(`src/config/custom_components/watts/api.py` 26-29): ensure the session
token is valid, then return its `access_token` field. -/
def async_get_access_token (now : Nat) (token : Token)
    (refreshR : Except PyErr Token) : Except PyErr String :=
  match async_ensure_token_valid now token refreshR with
  | Except.ok t => Except.ok t.access_token
  | Except.error e => Except.error e

/-- Externally visible steps taken by `make_request`, in order. -/
inductive HttpEvent where
  | ensureToken : HttpEvent
  | request : (method : String) → (url : String) → (authorization : String) → HttpEvent
  deriving DecidableEq, Repr

/-- `WattsVisionAPI.make_request`
(`src/config/custom_components/watts/api.py` 39-53): obtain a valid access
token, then issue the HTTP request with an `Authorization: Bearer <token>`
header.  `respR` is the outcome of the HTTP exchange
(`raise_for_status` plus JSON decoding).  Returns the ordered list of
steps performed together with the result. -/
def make_request (now : Nat) (token : Token) (refreshR : Except PyErr Token)
    (method url : String) (respR : Except PyErr (List (String × Value))) :
    List HttpEvent × Except PyErr (List (String × Value)) :=
  match async_get_access_token now token refreshR with
  | Except.error e => ([HttpEvent.ensureToken], Except.error e)
  | Except.ok tok =>
    ([HttpEvent.ensureToken, HttpEvent.request method url ("Bearer " ++ tok)], respR)

/-- Network calls performed by `async_get_all_devices_data`, in order. -/
inductive ApiCall where
  | discover : ApiCall
  | report : (device_id : Value) → ApiCall
  deriving DecidableEq, Repr

/-- The `deviceId` entry of a discovery summary (Python
`device["deviceId"]`); `vNone` stands in when the key is absent, in which
case the embedded loop raises `KeyError` instead of using it. -/
def discoveredId (device : DeviceData) : Value :=
  (dictGet device "deviceId").getD Value.vNone

/-- The per-device loop of `WattsVisionAPI.async_get_all_devices_data`
(`src/config/custom_components/watts/api.py` 71-74): for each discovered
summary, read its `deviceId`, fetch that device's report via the oracle
`reportOf`, and bind the id to the merge `{**device, **report}`.  The first
raising step aborts the whole loop.  Returns the detail calls performed, in
order, with the result. -/
def deviceLoop (reportOf : Value → Except PyErr DeviceData) :
    List DeviceData → List (Value × DeviceData) →
    List ApiCall × Except PyErr (List (Value × DeviceData))
  | [], acc => ([], Except.ok acc)
  | device :: rest, acc =>
    match dictGet device "deviceId" with
    | none => ([], Except.error (PyErr.keyError "deviceId"))
    | some device_id =>
      match reportOf device_id with
      | Except.error e => ([ApiCall.report device_id], Except.error e)
      | Except.ok report =>
        let step := deviceLoop reportOf rest (dictInsert acc device_id (pyUnion device report))
        (ApiCall.report device_id :: step.1, step.2)

/-- `WattsVisionAPI.async_get_all_devices_data`
(`src/config/custom_components/watts/api.py` 66-76): one discovery call,
then the per-device detail loop over the discovered summaries.
`discoverR` is the outcome of `async_discover_devices`; `reportOf` gives
the outcome of `async_get_device_report` for each id.  Returns the network
calls performed, in order, with the result. -/
def async_get_all_devices_data (discoverR : Except PyErr (List DeviceData))
    (reportOf : Value → Except PyErr DeviceData) :
    List ApiCall × Except PyErr (List (Value × DeviceData)) :=
  match discoverR with
  | Except.error e => ([ApiCall.discover], Except.error e)
  | Except.ok devices =>
    let step := deviceLoop reportOf devices []
    (ApiCall.discover :: step.1, step.2)

/-- The merged record `{**device, **report}` that
`async_get_all_devices_data` binds to a summary's id, expressed through the
report oracle (only the all-reports-succeed case is used). -/
def mergedOf (reportOf : Value → Except PyErr DeviceData) (device : DeviceData) :
    DeviceData :=
  match reportOf (discoveredId device) with
  | Except.ok report => pyUnion device report
  | Except.error _ => pyUnion device []

/-- The host framework's HVAC mode values used by the climate entity.
`HVACMode` in Home Assistant has further members (here represented by
`cool`); the integration maps onto `auto`, `heat` and `off` only. -/
inductive HVACMode where
  | auto : HVACMode
  | heat : HVACMode
  | off : HVACMode
  | cool : HVACMode
  deriving DecidableEq, Repr

/-- The `mode_mapping` dict lookup inside `WattsVisionClimate.hvac_mode`
(`src/config/custom_components/watts/climate.py` 123-130): Program maps to
Auto, Eco and Comfort to Heat, Off to Off, and `dict.get` yields `None` for
every other key. -/
def mode_mapping (mode : String) : Option HVACMode :=
  if mode = "Program" then some HVACMode.auto
  else if mode = "Eco" then some HVACMode.heat
  else if mode = "Comfort" then some HVACMode.heat
  else if mode = "Off" then some HVACMode.off
  else none

/-- `mode_mapping.get(thermostat_mode)` where `thermostat_mode` is the raw
value of `device_data.get("thermostatMode")`: the dict keys are strings, so
`None` or a non-string value looks up to `None`. -/
def modeMappingVal : Option Value → Option HVACMode
  | some (Value.vStr s) => mode_mapping s
  | _ => none

/-- `WattsVisionClimate.current_temperature`
(`src/config/custom_components/watts/climate.py` 100-106): the snapshot
record's `currentTemperature` field when the record is present and truthy
(a non-empty dict), else `None`. -/
def current_temperature (snap : Snapshot) (device_id : String) : Option Value :=
  match dictGet snap device_id with
  | some device_data =>
    if device_data = [] then none else dictGet device_data "currentTemperature"
  | none => none

/-- `WattsVisionClimate.target_temperature`
(`src/config/custom_components/watts/climate.py` 108-114): the record's
`setpoint` field under the same truthiness guard. -/
def target_temperature (snap : Snapshot) (device_id : String) : Option Value :=
  match dictGet snap device_id with
  | some device_data =>
    if device_data = [] then none else dictGet device_data "setpoint"
  | none => none

/-- `WattsVisionClimate.hvac_mode`
(`src/config/custom_components/watts/climate.py` 116-131): map the record's
`thermostatMode` through `mode_mapping` under the truthiness guard. -/
def hvac_mode (snap : Snapshot) (device_id : String) : Option HVACMode :=
  match dictGet snap device_id with
  | some device_data =>
    if device_data = [] then none
    else modeMappingVal (dictGet device_data "thermostatMode")
  | none => none

/-- `WattsVisionClimate.available` and `WattsVisionSwitch.available`
(`src/config/custom_components/watts/climate.py` 133-139,
`src/config/custom_components/watts/switch.py` 86-92, identical bodies):
the record's `isOnline` field with default `False`, and `False` when the
record is absent or empty. -/
def available (snap : Snapshot) (device_id : String) : Value :=
  match dictGet snap device_id with
  | some device_data =>
    if device_data = [] then Value.vBool false
    else (dictGet device_data "isOnline").getD (Value.vBool false)
  | none => Value.vBool false

/-- `WattsVisionSwitch.is_on`
(`src/config/custom_components/watts/switch.py` 77-84): the record's
`isTurnedOn` field with default `False` when the record is truthy, `None`
when absent or empty. -/
def is_on (snap : Snapshot) (device_id : String) : Option Value :=
  match dictGet snap device_id with
  | some device_data =>
    if device_data = [] then none
    else some ((dictGet device_data "isTurnedOn").getD (Value.vBool false))
  | none => none

/-- `WattsVisionClimate.extra_state_attributes`
(`src/config/custom_components/watts/climate.py` 141-160): a fixed-key dict
of raw record fields, `{}` when the record is absent or empty (falsy). -/
def extra_state_attributes (snap : Snapshot) (device_id : String) :
    List (String × Value) :=
  match dictGet snap device_id with
  | some device_data =>
    if device_data = [] then []
    else
      [("thermostat_mode", (dictGet device_data "thermostatMode").getD Value.vNone),
       ("device_type", (dictGet device_data "deviceType").getD Value.vNone),
       ("room_name", (dictGet device_data "roomName").getD Value.vNone),
       ("description", (dictGet device_data "description").getD Value.vNone),
       ("temperature_unit", (dictGet device_data "temperatureUnit").getD Value.vNone),
       ("available_thermostat_modes",
         (dictGet device_data "availableThermostatModes").getD (Value.vList [])),
       ("supports_proactive_reporting",
         (dictGet device_data "supportsProactiveReporting").getD Value.vNone)]
  | none => []

/-- A `visionpluspython` `Device` object as used by the coordinator in
`src/homeassistant/components/watts/coordinator.py`: the coordinator only
reads its `device_id` attribute; the remaining detail is an opaque
payload. -/
structure Device where
  device_id : String
  payload : Value
  deriving DecidableEq, Repr

/-- State of `WattsVisionCoordinator`
(`src/homeassistant/components/watts/coordinator.py`): the private device
dict `_devices` and flag `_is_initialized`, plus the framework-held
published snapshot `data` and `last_update_success` flag. -/
structure CoordinatorState where
  devices : List (String × Device)
  is_initialized : Bool
  data : Option (List (String × Device))
  last_update_success : Bool
  deriving DecidableEq, Repr

/-- The coordinator state right after construction: `_devices = {}`,
`_is_initialized = False`, nothing published yet. -/
def initialCoordinatorState : CoordinatorState :=
  { devices := [], is_initialized := false, data := none, last_update_success := false }

/-- Modelled from the spec:
`DataUpdateCoordinator.async_set_updated_data` is host-framework code, not
under `src/`.  Spec sections 2 and 4.3: it publishes the given mapping as
the current snapshot and marks the update successful. -/
def async_set_updated_data (st : CoordinatorState)
    (snap : List (String × Device)) : CoordinatorState :=
  { st with data := some snap, last_update_success := true }

/-- `WattsVisionCoordinator.async_config_entry_first_refresh`
(`src/homeassistant/components/watts/coordinator.py` 32-46): discover all
devices (oracle `discoverR`), key them by `device_id`, set the
initialization flag, publish the dict; any exception is wrapped into
`UpdateFailed` and nothing is mutated. -/
def async_config_entry_first_refresh (discoverR : Except PyErr (List Device))
    (st : CoordinatorState) : CoordinatorState × Except PyErr Unit :=
  match discoverR with
  | Except.error _ => (st, Except.error (PyErr.updateFailed "Initial discovery failed"))
  | Except.ok devices_list =>
    let devices := devices_list.foldl (fun acc d => dictInsert acc d.device_id d) []
    let st1 := { st with devices := devices, is_initialized := true }
    (async_set_updated_data st1 st1.devices, Except.ok ())

/-- Exception classes caught by `async_refresh_device`'s `except` clause:
`(RuntimeError, ValueError, TypeError)`. -/
def isCaughtByRefresh : PyErr → Bool
  | PyErr.runtimeError _ => true
  | PyErr.valueError _ => true
  | PyErr.typeError _ => true
  | _ => false

/-- `WattsVisionCoordinator.async_refresh_device`
(`src/homeassistant/components/watts/coordinator.py` 48-57): fetch one
device (oracle `getDeviceR`, which may yield `None`); on a device, write it
into `_devices` and publish; `RuntimeError`, `ValueError` and `TypeError`
are caught and logged, other exceptions propagate. -/
def async_refresh_device (getDeviceR : Except PyErr (Option Device))
    (device_id : String) (st : CoordinatorState) :
    CoordinatorState × Except PyErr Unit :=
  match getDeviceR with
  | Except.ok (some device) =>
    let st1 := { st with devices := dictInsert st.devices device_id device }
    (async_set_updated_data st1 st1.devices, Except.ok ())
  | Except.ok none => (st, Except.ok ())
  | Except.error e =>
    if isCaughtByRefresh e then (st, Except.ok ()) else (st, Except.error e)

/-- The `except Exception` clause of `_async_update_data`
(`src/homeassistant/components/watts/coordinator.py` 80-83): an
`UpdateFailed` is re-raised as is, anything else is wrapped. -/
def wrapUpdateFailed : PyErr → PyErr
  | PyErr.updateFailed m => PyErr.updateFailed m
  | _ => PyErr.updateFailed "API error during devices update"

/-- `WattsVisionCoordinator._async_update_data`
(`src/homeassistant/components/watts/coordinator.py` 59-85): when not yet
initialized, run the first refresh; with no known devices, return the dict
untouched; otherwise fetch the bulk report (oracle `reportR`) and write
every returned device over `_devices`.  Failures surface as
`UpdateFailed`. -/
def async_update_data (discoverR : Except PyErr (List Device))
    (reportR : Except PyErr (List (String × Device))) (st : CoordinatorState) :
    CoordinatorState × Except PyErr (List (String × Device)) :=
  if st.is_initialized = false then
    match async_config_entry_first_refresh discoverR st with
    | (st1, Except.ok _) => (st1, Except.ok st1.devices)
    | (st1, Except.error e) => (st1, Except.error (wrapUpdateFailed e))
  else if st.devices = [] then (st, Except.ok st.devices)
  else
    match reportR with
    | Except.error e => (st, Except.error (wrapUpdateFailed e))
    | Except.ok updated =>
      let devices := updated.foldl (fun acc kv => dictInsert acc kv.1 kv.2) st.devices
      ({ st with devices := devices }, Except.ok devices)

/-- `WattsVisionCoordinator._async_update_data` of the other revision
(`src/config/custom_components/watts/coordinator.py` 31-37): return the
bulk fetch result, wrapping any exception into `UpdateFailed`. -/
def async_update_data_config (fetchR : Except PyErr Snapshot) :
    Except PyErr Snapshot :=
  match fetchR with
  | Except.ok d => Except.ok d
  | Except.error _ => Except.error (PyErr.updateFailed "Error communicating with API")

/-- Outcome of `async_setup_entry` as seen by the host: success, or one of
the typed failures `ConfigEntryAuthFailed` / `ConfigEntryNotReady`. -/
inductive SetupResult where
  | ok : SetupResult
  | authFailed : SetupResult
  | notReady : SetupResult
  deriving DecidableEq, Repr

/-- Outcome of the initial `oauth_session.async_ensure_token_valid` call in
setup: success, an HTTP `ClientResponseError` with a status, or a plain
`ClientError`. -/
inductive OauthResult where
  | ok : OauthResult
  | responseError : (status : Nat) → OauthResult
  | clientError : OauthResult
  deriving DecidableEq, Repr

/-- `async_setup_entry` (`src/homeassistant/components/watts/__init__.py`
37-80): validate the OAuth session (4xx responses become auth-failed,
other failures not-ready), construct the coordinator, run its first
refresh, and turn `UpdateFailed` into not-ready.  The second component is
the coordinator state when one was constructed. -/
def async_setup_entry (oauthR : OauthResult)
    (discoverR : Except PyErr (List Device)) :
    SetupResult × Option CoordinatorState :=
  match oauthR with
  | OauthResult.responseError status =>
    (if 400 ≤ status ∧ status < 500 then SetupResult.authFailed else SetupResult.notReady,
     none)
  | OauthResult.clientError => (SetupResult.notReady, none)
  | OauthResult.ok =>
    match async_config_entry_first_refresh discoverR initialCoordinatorState with
    | (st1, Except.ok _) => (SetupResult.ok, some st1)
    | (st1, Except.error _) => (SetupResult.notReady, some st1)

/-- Steps taken by `async_unload_entry`, in order. -/
inductive UnloadEvent where
  | closeClient : UnloadEvent
  | closeAuth : UnloadEvent
  | closeCoordinator : UnloadEvent
  | unloadPlatforms : UnloadEvent
  deriving DecidableEq, Repr

/-- The class caught around `client.close()` and `auth.close()`:
`OSError`. -/
def isCaughtOSError : PyErr → Bool
  | PyErr.osError _ => true
  | _ => false

/-- The classes caught around the coordinator close:
`(OSError, AttributeError)`. -/
def isCaughtCoordClose : PyErr → Bool
  | PyErr.osError _ => true
  | PyErr.attributeError _ => true
  | _ => false

/-- `async_unload_entry` (`src/homeassistant/components/watts/__init__.py`
83-122): close the client, the auth and the coordinator in order, each
under its own narrow `except` clause, then unload the platforms and return
that result.  An uncaught close error propagates and aborts the rest.
Returns the steps performed, in order, with the outcome. -/
def async_unload_entry (clientCloseR authCloseR coordCloseR : Except PyErr Unit)
    (platformUnloadR : Bool) : List UnloadEvent × Except PyErr Bool :=
  match clientCloseR with
  | Except.error e =>
    if isCaughtOSError e then
      match authCloseR with
      | Except.error e2 =>
        if isCaughtOSError e2 then
          match coordCloseR with
          | Except.error e3 =>
            if isCaughtCoordClose e3 then
              ([UnloadEvent.closeClient, UnloadEvent.closeAuth,
                UnloadEvent.closeCoordinator, UnloadEvent.unloadPlatforms],
               Except.ok platformUnloadR)
            else
              ([UnloadEvent.closeClient, UnloadEvent.closeAuth,
                UnloadEvent.closeCoordinator], Except.error e3)
          | Except.ok _ =>
            ([UnloadEvent.closeClient, UnloadEvent.closeAuth,
              UnloadEvent.closeCoordinator, UnloadEvent.unloadPlatforms],
             Except.ok platformUnloadR)
        else ([UnloadEvent.closeClient, UnloadEvent.closeAuth], Except.error e2)
      | Except.ok _ =>
        match coordCloseR with
        | Except.error e3 =>
          if isCaughtCoordClose e3 then
            ([UnloadEvent.closeClient, UnloadEvent.closeAuth,
              UnloadEvent.closeCoordinator, UnloadEvent.unloadPlatforms],
             Except.ok platformUnloadR)
          else
            ([UnloadEvent.closeClient, UnloadEvent.closeAuth,
              UnloadEvent.closeCoordinator], Except.error e3)
        | Except.ok _ =>
          ([UnloadEvent.closeClient, UnloadEvent.closeAuth,
            UnloadEvent.closeCoordinator, UnloadEvent.unloadPlatforms],
           Except.ok platformUnloadR)
    else ([UnloadEvent.closeClient], Except.error e)
  | Except.ok _ =>
    match authCloseR with
    | Except.error e2 =>
      if isCaughtOSError e2 then
        match coordCloseR with
        | Except.error e3 =>
          if isCaughtCoordClose e3 then
            ([UnloadEvent.closeClient, UnloadEvent.closeAuth,
              UnloadEvent.closeCoordinator, UnloadEvent.unloadPlatforms],
             Except.ok platformUnloadR)
          else
            ([UnloadEvent.closeClient, UnloadEvent.closeAuth,
              UnloadEvent.closeCoordinator], Except.error e3)
        | Except.ok _ =>
          ([UnloadEvent.closeClient, UnloadEvent.closeAuth,
            UnloadEvent.closeCoordinator, UnloadEvent.unloadPlatforms],
           Except.ok platformUnloadR)
      else ([UnloadEvent.closeClient, UnloadEvent.closeAuth], Except.error e2)
    | Except.ok _ =>
      match coordCloseR with
      | Except.error e3 =>
        if isCaughtCoordClose e3 then
          ([UnloadEvent.closeClient, UnloadEvent.closeAuth,
            UnloadEvent.closeCoordinator, UnloadEvent.unloadPlatforms],
           Except.ok platformUnloadR)
        else
          ([UnloadEvent.closeClient, UnloadEvent.closeAuth,
            UnloadEvent.closeCoordinator], Except.error e3)
      | Except.ok _ =>
        ([UnloadEvent.closeClient, UnloadEvent.closeAuth,
          UnloadEvent.closeCoordinator, UnloadEvent.unloadPlatforms],
         Except.ok platformUnloadR)

/-- Steps observable from an entity write command. -/
inductive WriteEvent where
  | apiCall : WriteEvent
  | requestRefresh : WriteEvent
  deriving DecidableEq, Repr

/-- `WattsVisionClimate.async_set_temperature`
(`src/config/custom_components/watts/climate.py` 162-178): no-op without a
temperature argument; otherwise issue the set-temperature call (oracle
`apiR`) and, on success, one `async_request_refresh`; every exception is
caught and logged. -/
def async_set_temperature (temperature : Option Value)
    (apiR : Except PyErr Unit) : List WriteEvent × Except PyErr Unit :=
  match temperature with
  | none => ([], Except.ok ())
  | some _ =>
    match apiR with
    | Except.error _ => ([WriteEvent.apiCall], Except.ok ())
    | Except.ok _ => ([WriteEvent.apiCall, WriteEvent.requestRefresh], Except.ok ())

/-- The `hvac_to_mode_number` dict of
`WattsVisionClimate.async_set_hvac_mode`
(`src/config/custom_components/watts/climate.py` 183-187). -/
def hvac_to_mode_number : HVACMode → Option Nat
  | HVACMode.heat => some 1
  | HVACMode.off => some 2
  | HVACMode.auto => some 6
  | HVACMode.cool => none

/-- `WattsVisionClimate.async_set_hvac_mode`
(`src/config/custom_components/watts/climate.py` 180-202): unsupported
modes are logged and ignored; otherwise issue the set-mode call and, on
success, one refresh; every exception is caught and logged. -/
def async_set_hvac_mode (mode : HVACMode)
    (apiR : Except PyErr Unit) : List WriteEvent × Except PyErr Unit :=
  match hvac_to_mode_number mode with
  | none => ([], Except.ok ())
  | some _ =>
    match apiR with
    | Except.error _ => ([WriteEvent.apiCall], Except.ok ())
    | Except.ok _ => ([WriteEvent.apiCall, WriteEvent.requestRefresh], Except.ok ())

/-- `WattsVisionSwitch.async_turn_on` / `async_turn_off`
(`src/config/custom_components/watts/switch.py` 110-128, identical up to
the boolean sent): issue the change-state call and, on success, one
refresh; every exception is caught and logged. -/
def async_set_switch_command (_is_turned_on : Bool)
    (apiR : Except PyErr Unit) : List WriteEvent × Except PyErr Unit :=
  match apiR with
  | Except.error _ => ([WriteEvent.apiCall], Except.ok ())
  | Except.ok _ => ([WriteEvent.apiCall, WriteEvent.requestRefresh], Except.ok ())

/-- `WattsVisionSwitch.async_turn_on` of the other revision
(`src/custom_components/watts/switch.py` 70-76): issue the change-state
call; only `RuntimeError` is caught, and no refresh is requested on
success (`async_turn_off`, 78-86, is identical up to the boolean). -/
def async_turn_on_cc (apiR : Except PyErr Unit) :
    List WriteEvent × Except PyErr Unit :=
  match apiR with
  | Except.ok _ => ([WriteEvent.apiCall], Except.ok ())
  | Except.error e =>
    match e with
    | PyErr.runtimeError _ => ([WriteEvent.apiCall], Except.ok ())
    | _ => ([WriteEvent.apiCall], Except.error e)

/-- Whether a close outcome is survivable under a given `except` clause:
either the close succeeded or it raised a caught class. -/
def closeOutcomeCaught (caught : PyErr → Bool) : Except PyErr Unit → Bool
  | Except.ok _ => true
  | Except.error e => caught e

/-!  Lemmas about the dict primitives, then one theorem per claim. -/

theorem dictGet_dictInsert {K V : Type} [DecidableEq K]
    (d : List (K × V)) (k : K) (v : V) (key : K) :
    dictGet (dictInsert d k v) key = if key = k then some v else dictGet d key := by
  induction d with
  | nil => simp [dictInsert, dictGet]
  | cons kv rest ih =>
    obtain ⟨k0, v0⟩ := kv
    by_cases hk : k = k0
    · subst hk
      by_cases hkey : key = k <;> simp [dictInsert, dictGet, hkey]
    · by_cases hkey0 : key = k0
      · subst hkey0
        have hne : ¬ key = k := fun h => hk h.symm
        simp [dictInsert, dictGet, hk, hne]
      · simp [dictInsert, dictGet, hk, hkey0, ih]

theorem foldl_insert_get_notmem {α K V : Type} [DecidableEq K]
    (f : α → K) (g : α → V) (xs : List α) (acc : List (K × V)) (key : K)
    (h : key ∉ xs.map f) :
    dictGet (xs.foldl (fun a x => dictInsert a (f x) (g x)) acc) key = dictGet acc key := by
  induction xs generalizing acc with
  | nil => simp
  | cons x rest ih =>
    simp only [List.map_cons, List.mem_cons, not_or] at h
    rw [List.foldl_cons, ih _ h.2, dictGet_dictInsert]
    simp [h.1]

theorem foldl_insert_get_mem {α K V : Type} [DecidableEq K]
    (f : α → K) (g : α → V) (xs : List α) (acc : List (K × V)) (x : α)
    (hnodup : (xs.map f).Nodup) (hx : x ∈ xs) :
    dictGet (xs.foldl (fun a y => dictInsert a (f y) (g y)) acc) (f x) = some (g x) := by
  induction xs generalizing acc with
  | nil => cases hx
  | cons y rest ih =>
    simp only [List.map_cons, List.nodup_cons] at hnodup
    rw [List.foldl_cons]
    rcases List.mem_cons.mp hx with rfl | hmem
    · rw [foldl_insert_get_notmem f g rest _ _ hnodup.1, dictGet_dictInsert]
      simp
    · exact ih _ hnodup.2 hmem

theorem dictGet_of_mem_nodup {K V : Type} [DecidableEq K]
    (d : List (K × V)) (k : K) (v : V) (hmem : (k, v) ∈ d)
    (hnodup : (dictKeys d).Nodup) : dictGet d k = some v := by
  induction d with
  | nil => cases hmem
  | cons kv rest ih =>
    obtain ⟨k0, v0⟩ := kv
    simp only [dictKeys, List.map_cons, List.nodup_cons] at hnodup
    rcases List.mem_cons.mp hmem with heq | hmem2
    · obtain ⟨rfl, rfl⟩ := Prod.mk.injEq .. ▸ heq
      simp [dictGet]
    · have hk : ¬ k = k0 := by
        intro h
        subst h
        exact hnodup.1 (List.mem_map.mpr ⟨(k, v), hmem2, rfl⟩)
      simpa [dictGet, hk] using ih hmem2 hnodup.2

/-- Claim C10: in the merged record `{**device, **report}` built by
`async_get_all_devices_data`, the report's value wins on every key the
summary and the report share; concretely, for a one-device discovery the
call returns the id bound to exactly `pyUnion summary report`. -/
theorem report_wins_in_merge (summary report : DeviceData) (key : String)
    (hnodup : (dictKeys report).Nodup) (hkey : key ∈ dictKeys report) :
    dictGet (pyUnion summary report) key = dictGet report key ∧
    (∀ device_id r, dictGet summary "deviceId" = some device_id →
      async_get_all_devices_data (Except.ok [summary]) (fun _ => Except.ok r) =
        ([ApiCall.discover, ApiCall.report device_id],
         Except.ok [(device_id, pyUnion summary r)])) := by
  constructor
  · obtain ⟨kv, hkv, hfst⟩ := List.mem_map.mp hkey
    obtain ⟨k, v⟩ := kv
    subst hfst
    have h1 := foldl_insert_get_mem Prod.fst Prod.snd report summary (k, v) hnodup hkv
    have h2 := dictGet_of_mem_nodup report k v hkv hnodup
    exact (h1.trans h2.symm :
      dictGet (pyUnion summary report) k = dictGet report k)
  · intro device_id r hid
    simp [async_get_all_devices_data, deviceLoop, hid, dictInsert]

/-- Witness for C10 at a concrete summary and report sharing the key
`x`. -/
theorem report_wins_in_merge_witness :
    dictGet (pyUnion [("deviceId", Value.vStr "T1"), ("x", Value.vInt 1)]
        [("x", Value.vInt 9)]) "x" =
      dictGet [("x", Value.vInt 9)] "x" ∧
    async_get_all_devices_data
        (Except.ok [[("deviceId", Value.vStr "T1"), ("x", Value.vInt 1)]])
        (fun _ => Except.ok [("x", Value.vInt 9)]) =
      ([ApiCall.discover, ApiCall.report (Value.vStr "T1")],
       Except.ok [(Value.vStr "T1",
         pyUnion [("deviceId", Value.vStr "T1"), ("x", Value.vInt 1)]
           [("x", Value.vInt 9)])]) := by
  have h := report_wins_in_merge [("deviceId", Value.vStr "T1"), ("x", Value.vInt 1)]
    [("x", Value.vInt 9)] "x" (by decide) (by decide)
  exact ⟨h.1, h.2 (Value.vStr "T1") [("x", Value.vInt 9)] (by decide)⟩

/-- Claim C2: the thermostat mode mapping is total and deterministic:
Program maps to Auto, Eco and Comfort to Heat, Off to Off, and every other
string to `none`; being a Lean function it never raises. -/
theorem mode_mapping_total :
    mode_mapping "Program" = some HVACMode.auto ∧
    mode_mapping "Eco" = some HVACMode.heat ∧
    mode_mapping "Comfort" = some HVACMode.heat ∧
    mode_mapping "Off" = some HVACMode.off ∧
    ∀ mode : String, mode ∉ ["Program", "Eco", "Comfort", "Off"] →
      mode_mapping mode = none := by
  refine ⟨rfl, rfl, rfl, rfl, ?_⟩
  intro mode h
  have h1 : ¬ mode = "Program" := fun he => h (by simp [he])
  have h2 : ¬ mode = "Eco" := fun he => h (by simp [he])
  have h3 : ¬ mode = "Comfort" := fun he => h (by simp [he])
  have h4 : ¬ mode = "Off" := fun he => h (by simp [he])
  simp [mode_mapping, h1, h2, h3, h4]

/-- Witness for C2 at the unrecognized mode string `Boost`. -/
theorem mode_mapping_total_witness : mode_mapping "Boost" = none :=
  mode_mapping_total.2.2.2.2 "Boost" (by decide)

/-- Counterexample to C5 as stated: with the record for `S1` present but
empty, the entity treats it as falsy, so `is_on` returns `None` instead of
the record's field reading (default `False`), and
`extra_state_attributes` returns `{}` instead of the fixed-key dict of
field readings. -/
theorem entity_reads_counterexample :
    dictGet [("S1", ([] : DeviceData))] "S1" = some [] ∧
    is_on [("S1", [])] "S1" = none ∧
    is_on [("S1", [])] "S1" ≠
      some ((dictGet ([] : DeviceData) "isTurnedOn").getD (Value.vBool false)) ∧
    extra_state_attributes [("S1", [])] "S1" = [] := by decide

/-- Claim C5 (amended): for a device id bound to a non-empty record in the
snapshot, every entity read property returns exactly the corresponding
reading of that record; for an id that is absent, or bound to an empty
(falsy) record, every read returns its defined unknown value — `None`,
`False` or the empty mapping — and, being Lean functions, none raises. -/
theorem entity_reads_follow_snapshot (snap : Snapshot) (device_id : String) :
    (∀ device_data : DeviceData,
      dictGet snap device_id = some device_data → device_data ≠ [] →
      current_temperature snap device_id = dictGet device_data "currentTemperature" ∧
      target_temperature snap device_id = dictGet device_data "setpoint" ∧
      hvac_mode snap device_id = modeMappingVal (dictGet device_data "thermostatMode") ∧
      is_on snap device_id = some ((dictGet device_data "isTurnedOn").getD (Value.vBool false)) ∧
      available snap device_id = (dictGet device_data "isOnline").getD (Value.vBool false) ∧
      extra_state_attributes snap device_id =
        [("thermostat_mode", (dictGet device_data "thermostatMode").getD Value.vNone),
         ("device_type", (dictGet device_data "deviceType").getD Value.vNone),
         ("room_name", (dictGet device_data "roomName").getD Value.vNone),
         ("description", (dictGet device_data "description").getD Value.vNone),
         ("temperature_unit", (dictGet device_data "temperatureUnit").getD Value.vNone),
         ("available_thermostat_modes",
           (dictGet device_data "availableThermostatModes").getD (Value.vList [])),
         ("supports_proactive_reporting",
           (dictGet device_data "supportsProactiveReporting").getD Value.vNone)]) ∧
    (dictGet snap device_id = none ∨ dictGet snap device_id = some [] →
      current_temperature snap device_id = none ∧
      target_temperature snap device_id = none ∧
      hvac_mode snap device_id = none ∧
      is_on snap device_id = none ∧
      available snap device_id = Value.vBool false ∧
      extra_state_attributes snap device_id = []) := by
  constructor
  · intro device_data hsome hne
    simp [current_temperature, target_temperature, hvac_mode, is_on, available,
      extra_state_attributes, hsome, hne]
  · intro habs
    rcases habs with h | h <;>
      simp [current_temperature, target_temperature, hvac_mode, is_on, available,
        extra_state_attributes, h]

/-- Witness for C5 at a concrete snapshot: a present thermostat record is
read field by field, and an absent id yields the unknown values. -/
theorem entity_reads_follow_snapshot_witness :
    current_temperature
        [("T1", [("currentTemperature", Value.vInt 21),
                 ("thermostatMode", Value.vStr "Comfort")])] "T1" =
      some (Value.vInt 21) ∧
    hvac_mode
        [("T1", [("currentTemperature", Value.vInt 21),
                 ("thermostatMode", Value.vStr "Comfort")])] "T1" =
      some HVACMode.heat ∧
    hvac_mode
        [("T1", [("currentTemperature", Value.vInt 21),
                 ("thermostatMode", Value.vStr "Comfort")])] "Z9" = none ∧
    available
        [("T1", [("currentTemperature", Value.vInt 21),
                 ("thermostatMode", Value.vStr "Comfort")])] "Z9" =
      Value.vBool false := by
  have hp := (entity_reads_follow_snapshot
      [("T1", [("currentTemperature", Value.vInt 21),
               ("thermostatMode", Value.vStr "Comfort")])] "T1").1
    [("currentTemperature", Value.vInt 21), ("thermostatMode", Value.vStr "Comfort")]
    (by decide) (by decide)
  have ha := (entity_reads_follow_snapshot
      [("T1", [("currentTemperature", Value.vInt 21),
               ("thermostatMode", Value.vStr "Comfort")])] "Z9").2
    (Or.inl (by decide))
  exact ⟨hp.1.trans (by decide), (hp.2.2.1).trans (by decide), ha.2.2.1, ha.2.2.2.2.1⟩

theorem wrapUpdateFailed_shape (e : PyErr) :
    ∃ m, wrapUpdateFailed e = PyErr.updateFailed m := by
  cases e <;> exact ⟨_, rfl⟩

/-- Claim C1: when the bulk update fails — discovery while uninitialized,
or the bulk report fetch once initialized with known devices — the
coordinator's `_async_update_data` raises `UpdateFailed` and leaves the
whole coordinator state, its device snapshot included, exactly as it was;
the other revision's `_async_update_data` likewise turns a failed bulk
fetch into `UpdateFailed`. -/
theorem bulk_update_failure_preserves_snapshot (st : CoordinatorState)
    (discoverR : Except PyErr (List Device))
    (reportR : Except PyErr (List (String × Device)))
    (hfail : (st.is_initialized = false ∧ ∃ e, discoverR = Except.error e) ∨
             (st.is_initialized = true ∧ st.devices ≠ [] ∧
              ∃ e, reportR = Except.error e)) :
    (async_update_data discoverR reportR st).1 = st ∧
    (∃ m, (async_update_data discoverR reportR st).2 =
      Except.error (PyErr.updateFailed m)) ∧
    (∀ e, async_update_data_config (Except.error e) =
      Except.error (PyErr.updateFailed "Error communicating with API")) := by
  refine ⟨?_, ?_, fun e => rfl⟩
  · rcases hfail with ⟨hinit, e, he⟩ | ⟨hinit, hne, e, he⟩
    · subst he
      simp [async_update_data, hinit, async_config_entry_first_refresh]
    · subst he
      simp [async_update_data, hinit, hne]
  · rcases hfail with ⟨hinit, e, he⟩ | ⟨hinit, hne, e, he⟩
    · subst he
      exact ⟨"Initial discovery failed",
        by simp [async_update_data, hinit, async_config_entry_first_refresh,
          wrapUpdateFailed]⟩
    · subst he
      obtain ⟨m, hm⟩ := wrapUpdateFailed_shape e
      exact ⟨m, by simp [async_update_data, hinit, hne, hm]⟩

/-- Witness for C1: a failing bulk report fetch on an initialized
coordinator with one known device leaves the state untouched and raises
`UpdateFailed`. -/
theorem bulk_update_failure_witness :
    (async_update_data (Except.ok []) (Except.error (PyErr.clientError "boom"))
        ⟨[("T1", ⟨"T1", Value.vNone⟩)], true, none, true⟩).1 =
      ⟨[("T1", ⟨"T1", Value.vNone⟩)], true, none, true⟩ ∧
    ∃ m, (async_update_data (Except.ok []) (Except.error (PyErr.clientError "boom"))
        ⟨[("T1", ⟨"T1", Value.vNone⟩)], true, none, true⟩).2 =
      Except.error (PyErr.updateFailed m) := by
  have h := bulk_update_failure_preserves_snapshot
    ⟨[("T1", ⟨"T1", Value.vNone⟩)], true, none, true⟩ (Except.ok [])
    (Except.error (PyErr.clientError "boom"))
    (Or.inr ⟨rfl, by decide, ⟨PyErr.clientError "boom", rfl⟩⟩)
  exact ⟨h.1, h.2.1⟩

/-- Counterexample to C4 as stated: a single-device fetch failing with an
exception outside `(RuntimeError, ValueError, TypeError)` — here a
transport `ClientError` — is not caught by `async_refresh_device` and
propagates to the caller. -/
theorem refresh_device_counterexample :
    async_refresh_device (Except.error (PyErr.clientError "connection lost")) "T1"
        ⟨[("T1", ⟨"T1", Value.vNone⟩)], true, none, true⟩ =
      (⟨[("T1", ⟨"T1", Value.vNone⟩)], true, none, true⟩,
       Except.error (PyErr.clientError "connection lost")) := by decide

/-- Claim C4 (amended): when the single-device fetch raises a
`RuntimeError`, `ValueError` or `TypeError`, `async_refresh_device`
catches and logs it and returns normally; exceptions of other classes
propagate; in every failing case the coordinator state — that device's
record, all other records, the published snapshot, and the global
last-update-success flag — is exactly unchanged. -/
theorem refresh_device_failure_is_isolated (st : CoordinatorState)
    (device_id : String) (e : PyErr) :
    (isCaughtByRefresh e = true →
      async_refresh_device (Except.error e) device_id st = (st, Except.ok ())) ∧
    (isCaughtByRefresh e = false →
      async_refresh_device (Except.error e) device_id st = (st, Except.error e)) ∧
    (async_refresh_device (Except.error e) device_id st).1 = st := by
  refine ⟨?_, ?_, ?_⟩
  · intro h
    simp [async_refresh_device, h]
  · intro h
    simp [async_refresh_device, h]
  · by_cases h : isCaughtByRefresh e <;> simp [async_refresh_device, h]

/-- Witness for C4 at a caught `RuntimeError` on a concrete state. -/
theorem refresh_device_failure_witness :
    async_refresh_device (Except.error (PyErr.runtimeError "boom")) "T1"
        ⟨[("T1", ⟨"T1", Value.vNone⟩)], true, none, true⟩ =
      (⟨[("T1", ⟨"T1", Value.vNone⟩)], true, none, true⟩, Except.ok ()) :=
  (refresh_device_failure_is_isolated ⟨[("T1", ⟨"T1", Value.vNone⟩)], true, none, true⟩
    "T1" (PyErr.runtimeError "boom")).1 (by decide)

/-- Claim C7: a failing initial discovery leaves the coordinator exactly in
its constructed state — initialization flag unset, nothing published —
makes the first refresh raise `UpdateFailed`, and setup surfaces this to
the host as `ConfigEntryNotReady`. -/
theorem setup_failure_leaves_uninitialized (e : PyErr)
    (discoverR : Except PyErr (List Device)) (hfail : discoverR = Except.error e) :
    async_config_entry_first_refresh discoverR initialCoordinatorState =
      (initialCoordinatorState,
       Except.error (PyErr.updateFailed "Initial discovery failed")) ∧
    initialCoordinatorState.is_initialized = false ∧
    initialCoordinatorState.data = none ∧
    async_setup_entry OauthResult.ok discoverR =
      (SetupResult.notReady, some initialCoordinatorState) := by
  subst hfail
  refine ⟨rfl, rfl, rfl, ?_⟩
  simp [async_setup_entry, async_config_entry_first_refresh]

/-- Witness for C7 at a concrete network failure during discovery. -/
theorem setup_failure_witness :
    async_setup_entry OauthResult.ok (Except.error (PyErr.clientError "down")) =
      (SetupResult.notReady, some initialCoordinatorState) :=
  (setup_failure_leaves_uninitialized (PyErr.clientError "down")
    (Except.error (PyErr.clientError "down")) rfl).2.2.2

theorem deviceLoop_ok (reportOf : Value → Except PyErr DeviceData)
    (devices : List DeviceData) :
    ∀ acc : List (Value × DeviceData),
    (∀ d ∈ devices, (dictGet d "deviceId").isSome = true) →
    (∀ d ∈ devices, ∃ r, reportOf (discoveredId d) = Except.ok r) →
    deviceLoop reportOf devices acc =
      (devices.map (fun d => ApiCall.report (discoveredId d)),
       Except.ok (devices.foldl
         (fun a d => dictInsert a (discoveredId d) (mergedOf reportOf d)) acc)) := by
  induction devices with
  | nil =>
    intro acc _ _
    simp [deviceLoop]
  | cons d rest ih =>
    intro acc hkeys hok
    obtain ⟨device_id, hid⟩ :=
      Option.isSome_iff_exists.mp (hkeys d (List.mem_cons_self d rest))
    obtain ⟨r, hr⟩ := hok d (List.mem_cons_self d rest)
    have hdid : discoveredId d = device_id := by simp [discoveredId, hid]
    rw [hdid] at hr
    have hmerged : mergedOf reportOf d = pyUnion d r := by
      simp [mergedOf, hdid, hr]
    have ihr := ih (dictInsert acc device_id (pyUnion d r))
      (fun x hx => hkeys x (List.mem_cons_of_mem d hx))
      (fun x hx => hok x (List.mem_cons_of_mem d hx))
    simp [deviceLoop, hid, hr, ihr, hdid, hmerged]

theorem deviceLoop_error (reportOf : Value → Except PyErr DeviceData)
    (devices : List DeviceData) :
    ∀ acc : List (Value × DeviceData),
    (∀ d ∈ devices, (dictGet d "deviceId").isSome = true) →
    (∃ d ∈ devices, ∃ e, reportOf (discoveredId d) = Except.error e) →
    ∃ e, (deviceLoop reportOf devices acc).2 = Except.error e := by
  induction devices with
  | nil =>
    intro acc _ hfail
    obtain ⟨d, hd, _⟩ := hfail
    cases hd
  | cons d rest ih =>
    intro acc hkeys hfail
    obtain ⟨device_id, hid⟩ :=
      Option.isSome_iff_exists.mp (hkeys d (List.mem_cons_self d rest))
    have hdid : discoveredId d = device_id := by simp [discoveredId, hid]
    cases hrep : reportOf device_id with
    | error e =>
      exact ⟨e, by simp [deviceLoop, hid, hrep]⟩
    | ok r =>
      obtain ⟨d2, hd2, e2, he2⟩ := hfail
      rcases List.mem_cons.mp hd2 with rfl | hmem
      · rw [hdid] at he2
        rw [he2] at hrep
        simp at hrep
      · obtain ⟨e3, he3⟩ := ih (dictInsert acc device_id (pyUnion d r))
          (fun x hx => hkeys x (List.mem_cons_of_mem d hx)) ⟨d2, hmem, e2, he2⟩
        exact ⟨e3, by simp [deviceLoop, hid, hrep, he3]⟩

/-- Claim C3: `async_get_all_devices_data` performs the discovery call
first; when discovery fails no detail fetch happens; when discovery
succeeds and every detail fetch succeeds, the detail calls follow
discovery, exactly one per discovered summary and in order, and the result
maps each discovered `deviceId` (under distinctness of the ids) to the
merge of that device's summary and report; when any detail fetch fails the
whole call raises and no partial result is returned. -/
theorem get_all_devices_data_contract (devices : List DeviceData)
    (reportOf : Value → Except PyErr DeviceData)
    (hkeys : ∀ d ∈ devices, (dictGet d "deviceId").isSome = true) :
    (∀ e, async_get_all_devices_data (Except.error e) reportOf =
      ([ApiCall.discover], Except.error e)) ∧
    ((∀ d ∈ devices, ∃ r, reportOf (discoveredId d) = Except.ok r) →
      async_get_all_devices_data (Except.ok devices) reportOf =
        (ApiCall.discover :: devices.map (fun d => ApiCall.report (discoveredId d)),
         Except.ok (devices.foldl
           (fun a d => dictInsert a (discoveredId d) (mergedOf reportOf d)) []))) ∧
    ((∀ d ∈ devices, ∃ r, reportOf (discoveredId d) = Except.ok r) →
      (devices.map discoveredId).Nodup →
      ∀ d ∈ devices,
        dictGet (devices.foldl
          (fun a d2 => dictInsert a (discoveredId d2) (mergedOf reportOf d2)) [])
          (discoveredId d) = some (mergedOf reportOf d)) ∧
    ((∃ d ∈ devices, ∃ e, reportOf (discoveredId d) = Except.error e) →
      ∃ e, (async_get_all_devices_data (Except.ok devices) reportOf).2 =
        Except.error e) := by
  refine ⟨fun e => rfl, ?_, ?_, ?_⟩
  · intro hok
    simp [async_get_all_devices_data, deviceLoop_ok reportOf devices [] hkeys hok]
  · intro _ hnodup d hd
    exact foldl_insert_get_mem discoveredId (mergedOf reportOf) devices [] d hnodup hd
  · intro hfail
    obtain ⟨e, he⟩ := deviceLoop_error reportOf devices [] hkeys hfail
    exact ⟨e, by simp [async_get_all_devices_data, he]⟩

/-- Witness for C3: a two-device discovery with succeeding reports yields
one detail call per device after discovery and the merged mapping, and a
one-device discovery whose report fails makes the whole call fail. -/
theorem get_all_devices_data_witness :
    async_get_all_devices_data
        (Except.ok [[("deviceId", Value.vStr "T1")], [("deviceId", Value.vStr "S1")]])
        (fun _ => Except.ok [("isOnline", Value.vBool true)]) =
      ([ApiCall.discover, ApiCall.report (Value.vStr "T1"),
        ApiCall.report (Value.vStr "S1")],
       Except.ok [(Value.vStr "T1",
          [("deviceId", Value.vStr "T1"), ("isOnline", Value.vBool true)]),
         (Value.vStr "S1",
          [("deviceId", Value.vStr "S1"), ("isOnline", Value.vBool true)])]) ∧
    ∃ e, (async_get_all_devices_data (Except.ok [[("deviceId", Value.vStr "T1")]])
        (fun _ => Except.error (PyErr.clientError "down"))).2 = Except.error e := by
  have h1 := (get_all_devices_data_contract
      [[("deviceId", Value.vStr "T1")], [("deviceId", Value.vStr "S1")]]
      (fun _ => Except.ok [("isOnline", Value.vBool true)]) (by decide)).2.1
    (fun d _ => ⟨[("isOnline", Value.vBool true)], rfl⟩)
  have h2 := (get_all_devices_data_contract [[("deviceId", Value.vStr "T1")]]
      (fun _ => Except.error (PyErr.clientError "down")) (by decide)).2.2.2
    ⟨[("deviceId", Value.vStr "T1")], by decide,
     PyErr.clientError "down", rfl⟩
  exact ⟨h1.trans (by decide), h2⟩

/-- Claim C6: whenever `make_request` emits an HTTP request, the trace
shows the token-validity check strictly before it, the request carries
`Bearer` followed by exactly the access token the check returned, and —
given that refresh yields unexpired tokens — that token is not expired at
the time of the check. -/
theorem request_token_always_fresh (now : Nat) (token : Token)
    (refreshR : Except PyErr Token) (method url : String)
    (respR : Except PyErr (List (String × Value)))
    (hfresh : ∀ t, refreshR = Except.ok t → now < t.expires_at) :
    ∀ m u a, HttpEvent.request m u a ∈
        (make_request now token refreshR method url respR).1 →
      ∃ t, async_ensure_token_valid now token refreshR = Except.ok t ∧
        a = "Bearer " ++ t.access_token ∧ now < t.expires_at ∧
        (make_request now token refreshR method url respR).1 =
          [HttpEvent.ensureToken,
           HttpEvent.request method url ("Bearer " ++ t.access_token)] := by
  intro m u a hmem
  cases hv : async_ensure_token_valid now token refreshR with
  | error e =>
    rw [show (make_request now token refreshR method url respR).1 = [HttpEvent.ensureToken]
      from by simp [make_request, async_get_access_token, hv]] at hmem
    simp at hmem
  | ok t =>
    have hvalid : now < t.expires_at := by
      unfold async_ensure_token_valid at hv
      by_cases hc : now < token.expires_at
      · rw [if_pos hc] at hv
        injection hv with h
        subst h
        exact hc
      · rw [if_neg hc] at hv
        exact hfresh t hv
    have htr : (make_request now token refreshR method url respR).1 =
        [HttpEvent.ensureToken,
         HttpEvent.request method url ("Bearer " ++ t.access_token)] := by
      simp [make_request, async_get_access_token, hv]
    rw [htr] at hmem
    simp only [List.mem_cons, List.not_mem_nil, or_false] at hmem
    rcases hmem with hmem | hmem
    · cases hmem
    · obtain ⟨rfl, rfl, rfl⟩ := HttpEvent.request.injEq .. ▸ hmem
      exact ⟨t, rfl, rfl, hvalid, htr⟩

/-- Witness for C6: a still-valid stored token is attached unchanged as
the Bearer header, after the validity check. -/
theorem request_token_witness :
    ∃ t, async_ensure_token_valid 0 ⟨"tok", 100⟩
        (Except.error (PyErr.clientError "x")) = Except.ok t ∧
      "Bearer tok" = "Bearer " ++ t.access_token ∧ 0 < t.expires_at ∧
      (make_request 0 ⟨"tok", 100⟩ (Except.error (PyErr.clientError "x"))
          "GET" "u" (Except.ok [])).1 =
        [HttpEvent.ensureToken, HttpEvent.request "GET" "u"
          ("Bearer " ++ t.access_token)] :=
  request_token_always_fresh 0 ⟨"tok", 100⟩ (Except.error (PyErr.clientError "x"))
    "GET" "u" (Except.ok []) (fun t h => nomatch h) "GET" "u" "Bearer tok" (by decide)

/-- Counterexample to C8 as stated: a close failure outside the caught
classes — here `client.close()` raising `ValueError` — propagates, so the
remaining closes and the platform unload are never attempted and the
outcome is not the platform-unload result. -/
theorem unload_counterexample :
    async_unload_entry (Except.error (PyErr.valueError "boom")) (Except.ok ())
        (Except.ok ()) true =
      ([UnloadEvent.closeClient], Except.error (PyErr.valueError "boom")) ∧
    UnloadEvent.unloadPlatforms ∉
      (async_unload_entry (Except.error (PyErr.valueError "boom")) (Except.ok ())
        (Except.ok ()) true).1 ∧
    (async_unload_entry (Except.error (PyErr.valueError "boom")) (Except.ok ())
        (Except.ok ()) true).2 ≠ Except.ok true := by decide

/-- Claim C8 (amended): for every subset of the three resources whose close
raises an error of its caught classes — `OSError` for client and auth,
`OSError` or `AttributeError` for the coordinator — unload still attempts
all three closes in order, still invokes platform unload, and returns
exactly the platform-unload outcome. -/
theorem unload_attempts_all_and_follows_platforms
    (clientCloseR authCloseR coordCloseR : Except PyErr Unit)
    (platformUnloadR : Bool)
    (hc : closeOutcomeCaught isCaughtOSError clientCloseR = true)
    (ha : closeOutcomeCaught isCaughtOSError authCloseR = true)
    (hk : closeOutcomeCaught isCaughtCoordClose coordCloseR = true) :
    async_unload_entry clientCloseR authCloseR coordCloseR platformUnloadR =
      ([UnloadEvent.closeClient, UnloadEvent.closeAuth,
        UnloadEvent.closeCoordinator, UnloadEvent.unloadPlatforms],
       Except.ok platformUnloadR) := by
  cases clientCloseR <;> cases authCloseR <;> cases coordCloseR <;>
    simp_all [async_unload_entry, closeOutcomeCaught]

/-- Witness for C8: client close raising `OSError` and coordinator close
raising `AttributeError` while platform unload reports failure. -/
theorem unload_attempts_all_witness :
    async_unload_entry (Except.error (PyErr.osError "pipe")) (Except.ok ())
        (Except.error (PyErr.attributeError "close")) false =
      ([UnloadEvent.closeClient, UnloadEvent.closeAuth,
        UnloadEvent.closeCoordinator, UnloadEvent.unloadPlatforms],
       Except.ok false) :=
  unload_attempts_all_and_follows_platforms (Except.error (PyErr.osError "pipe"))
    (Except.ok ()) (Except.error (PyErr.attributeError "close")) false
    (by decide) (by decide) (by decide)

/-- Counterexample to C9 as stated: in the
`src/custom_components/watts/switch.py` revision a successful turn-on
issues no refresh at all, and a failing call raising anything but
`RuntimeError` propagates out of the entity. -/
theorem write_commands_counterexample :
    async_turn_on_cc (Except.ok ()) = ([WriteEvent.apiCall], Except.ok ()) ∧
    (async_turn_on_cc (Except.ok ())).1.count WriteEvent.requestRefresh = 0 ∧
    async_turn_on_cc (Except.error (PyErr.clientError "down")) =
      ([WriteEvent.apiCall], Except.error (PyErr.clientError "down")) := by decide

/-- Claim C9 (amended): for the write commands of the
`src/config/custom_components/watts` revision — set temperature, set HVAC
mode, switch on/off — a successful API call is followed by exactly one
coordinator refresh request, and a failing API call is caught at the
entity, propagates nothing, and issues no refresh. -/
theorem write_commands_refresh_once (temperature : Value) (mode : HVACMode)
    (is_turned_on : Bool) (apiR : Except PyErr Unit) (n : Nat)
    (hmode : hvac_to_mode_number mode = some n) :
    (apiR = Except.ok () →
      async_set_temperature (some temperature) apiR =
        ([WriteEvent.apiCall, WriteEvent.requestRefresh], Except.ok ()) ∧
      async_set_hvac_mode mode apiR =
        ([WriteEvent.apiCall, WriteEvent.requestRefresh], Except.ok ()) ∧
      async_set_switch_command is_turned_on apiR =
        ([WriteEvent.apiCall, WriteEvent.requestRefresh], Except.ok ())) ∧
    (∀ e, apiR = Except.error e →
      async_set_temperature (some temperature) apiR =
        ([WriteEvent.apiCall], Except.ok ()) ∧
      async_set_hvac_mode mode apiR = ([WriteEvent.apiCall], Except.ok ()) ∧
      async_set_switch_command is_turned_on apiR =
        ([WriteEvent.apiCall], Except.ok ())) := by
  constructor
  · intro h
    subst h
    simp [async_set_temperature, async_set_hvac_mode, hmode,
      async_set_switch_command]
  · intro e h
    subst h
    simp [async_set_temperature, async_set_hvac_mode, hmode,
      async_set_switch_command]

/-- Witness for C9: setting 23 degrees successfully issues one refresh; a
failed set-mode call is swallowed with no refresh. -/
theorem write_commands_refresh_once_witness :
    async_set_temperature (some (Value.vInt 23)) (Except.ok ()) =
      ([WriteEvent.apiCall, WriteEvent.requestRefresh], Except.ok ()) ∧
    async_set_hvac_mode HVACMode.heat (Except.error (PyErr.clientError "down")) =
      ([WriteEvent.apiCall], Except.ok ()) := by
  have h1 := (write_commands_refresh_once (Value.vInt 23) HVACMode.heat true
    (Except.ok ()) 1 rfl).1 rfl
  have h2 := (write_commands_refresh_once (Value.vInt 23) HVACMode.heat true
    (Except.error (PyErr.clientError "down")) 1 rfl).2
    (PyErr.clientError "down") rfl
  exact ⟨h1.1, h2.2.1⟩
